import Mathlib

/-!
Shallow embedding of the sortable-list widget of the mojave repository.

The controller `src/ui/Sortable.ts` is embedded as an explicit state machine:
a `State` value holds the interaction reference, the attached-listener flags,
the delegated-listener token and count, the list of events emitted so far,
the queue of pending asynchronous finalize continuations (the `.then`
callback registered by `onDragEnd`), and an operational trace of the
primitive actions taken, in order.

The collaborator `SortableInteraction` (imported by Sortable.ts from
`./Sortable/SortableInteraction`, not present in the sources) and the DOM
utilities (`closest`, `find`, `findOne`, listener attach/detach, delegation)
are modelled from the spec; each such definition carries a
`Modelled from the spec:` doc comment.
-/

set_option autoImplicit false

namespace Mojave

/-- DOM elements are identified by natural numbers. -/
abbrev Elem := Nat

/-- `SortableResult` from src/ui/Sortable.ts: describes where the drop ended.
In the TypeScript the `item` field is typed `HTMLElement`, but the value that
flows into it can be `null` (see `onInteractionStart`), so it is an `Option`
here. -/
structure SortableResult where
  item : Option Elem
  before : Option Elem
deriving DecidableEq

/-- The slice of a DOM `MouseEvent` that src/ui/Sortable.ts reads:
the target, its ancestor chain (nearest first, used by `closest`),
the screen coordinates, and the related target (used by `onMouseOut`). -/
structure MouseEvent where
  target : Option Elem
  ancestors : List Elem
  screenX : Int
  screenY : Int
  relatedTarget : Option Elem
deriving DecidableEq

/-- The live DOM surrounding one sortable container: the container's child
list in document order, the `items` selector as a decidable predicate on
elements, the scroll offset, the insertion-point geometry (Modelled from the
spec: the Interaction "recomputes insertion point directly against live DOM
geometry"; the geometry itself is abstracted as a map from pointer
coordinates and scroll offset to the anchor element), and the document root
element returned by `findOne("html")`. -/
structure World where
  children : List Elem
  itemSel : Elem → Bool
  scrollY : Int
  anchorAt : Int → Int → Int → Option Elem
  htmlElem : Elem

/-- Modelled from the spec: the external collaborator `find` from
dom/traverse, "a selector-matching find-all query scoped to a root" —
all elements below the container matching the selector, in DOM order. -/
def findItems (w : World) : List Elem :=
  w.children.filter w.itemSel

/-- Modelled from the spec: the external collaborator `closest` from
dom/traverse, "a selector-matching closest-ancestor query" — the nearest
ancestor of the target that matches the selector, or `none`. -/
def closest (sel : Elem → Bool) (ancestors : List Elem) : Option Elem :=
  ancestors.find? sel

/-- The element directly after `item` in the child list, or `none` when
`item` is last (or absent). -/
def nextAfter (item : Elem) : List Elem → Option Elem
  | [] => none
  | [_] => none
  | a :: b :: rest => if a = item then some b else nextAfter item (b :: rest)

/-- Insert `item` directly before `anchor`; if `anchor` is absent the item
lands at the end. -/
def insertBeforeElem (anchor item : Elem) : List Elem → List Elem
  | [] => [item]
  | a :: rest =>
    if a = anchor then item :: a :: rest else a :: insertBeforeElem anchor item rest

/-- Move `item` so that it sits directly before `anchor` (`none` = at the
end) in the child list. -/
def moveBefore (item : Elem) (anchor : Option Elem) (l : List Elem) : List Elem :=
  let removed := l.erase item
  match anchor with
  | none => removed ++ [item]
  | some a => insertBeforeElem a item removed

/-- `moveBefore` lifted to an optional item: with no item the DOM is left
untouched. -/
def moveBeforeOpt (item : Option Elem) (anchor : Option Elem) (l : List Elem) : List Elem :=
  match item with
  | none => l
  | some it => moveBefore it anchor l

/-- Modelled from the spec: `SortableInteraction`
(src/ui/Sortable/SortableInteraction.ts is imported by src/ui/Sortable.ts
but is not among the sources). Holds the dragged item, the last pointer
coordinates, the item's original sibling anchor captured by `start()`
("the next sibling at pickup time") and the current computed anchor. -/
structure SortableInteraction where
  draggedItem : Option Elem
  lastX : Int
  lastY : Int
  origBefore : Option Elem
  curBefore : Option Elem
deriving DecidableEq

namespace SortableInteraction

/-- Modelled from the spec: the constructor stores the dragged item and the
originating pointer coordinates; no anchor is captured yet. -/
def make (draggedItem : Option Elem) (x y : Int) : SortableInteraction :=
  { draggedItem := draggedItem, lastX := x, lastY := y,
    origBefore := none, curBefore := none }

/-- Modelled from the spec: `start()` "captures the dragged item's current
sibling position as the baseline before-anchor"; no DOM reorder happens. -/
def start (i : SortableInteraction) (w : World) : SortableInteraction :=
  let anchor :=
    match i.draggedItem with
    | none => none
    | some it => nextAfter it w.children
  { i with origBefore := anchor, curBefore := anchor }

/-- Modelled from the spec: `onMove(x, y)` recomputes the insertion anchor
from the pointer position; if it differs from the current anchor the dragged
item is moved in the DOM and the anchor updated, and the call is idempotent
otherwise (no DOM mutation when the computed anchor is unchanged). -/
def onMove (i : SortableInteraction) (x y : Int) (w : World) :
    SortableInteraction × World :=
  let newAnchor := w.anchorAt x y w.scrollY
  if newAnchor = i.curBefore then
    ({ i with lastX := x, lastY := y }, w)
  else
    ({ i with lastX := x, lastY := y, curBefore := newAnchor },
     { w with children := moveBeforeOpt i.draggedItem newAnchor w.children })

/-- Modelled from the spec: `onScroll()` recomputes the anchor against the
container's new scroll offset without new pointer coordinates. -/
def onScroll (i : SortableInteraction) (w : World) :
    SortableInteraction × World :=
  i.onMove i.lastX i.lastY w

/-- Modelled from the spec: `orderHasChanged()` compares the item's original
sibling anchor to its final anchor, by identity. -/
def orderHasChanged (i : SortableInteraction) : Bool :=
  decide (i.curBefore ≠ i.origBefore)

end SortableInteraction

/-- The finalize action chosen by `onDragEnd` (src/ui/Sortable.ts lines
150-152): `drop(screenX, screenY)` when a mouse event is present, `abort()`
otherwise. Both resolve asynchronously; the action is queued and its effect
applied when the continuation runs. -/
inductive FinalizeAction
  | drop (x y : Int)
  | abort
deriving DecidableEq

/-- Modelled from the spec: the asynchronous finalize of the interaction.
`drop` "finalizes with one last `onMove` application at the given
coordinates, then produces a Result describing the final anchor"; `abort`
"cancels the gesture — the dragged Item is restored to its pre-drag DOM
position" and resolves with no result (the TypeScript promise resolves with
`undefined`). -/
def runFinalize (i : SortableInteraction) (w : World) :
    FinalizeAction → SortableInteraction × World × Option SortableResult
  | FinalizeAction.drop x y =>
    let m := i.onMove x y w
    (m.1, m.2, some { item := m.1.draggedItem, before := m.1.curBefore })
  | FinalizeAction.abort =>
    ({ i with curBefore := i.origBefore },
     { w with children := moveBeforeOpt i.draggedItem i.origBefore w.children },
     none)

/-- An event published through the emitter, with its payload
(src/ui/Sortable.ts: `start` carries the dragged item, `end` carries
nothing, `changed` carries `{items, result}`). -/
inductive EmittedEvent
  | start (item : Option Elem)
  | endEvent
  | changed (items : List Elem) (result : Option SortableResult)
deriving DecidableEq

/-- The primitive operational actions of the controller, recorded in order
as they are performed. -/
inductive Act
  | constructInteraction
  | attachListeners
  | emitStart
  | preventDefault
  | detachListeners
  | finalizeResolved
  | requery
  | readOrderChanged
  | clearInteraction
  | emitEnd
  | emitChanged
deriving DecidableEq

/-- The full state of one `Sortable` controller plus its surrounding world:
the DOM, the `interaction` reference, whether the document/window
move/mouseup/mouseout/scroll listeners are attached, the delegated
mousedown token (`delegateHandler`) and the number of delegated listeners
installed on the container, a fresh-token counter, the events emitted so
far, the queued asynchronous finalize continuations, and the operational
trace. -/
structure State where
  world : World
  interaction : Option SortableInteraction
  docListeners : Bool
  delegateHandler : Option Nat
  delegateCount : Nat
  nextToken : Nat
  emitted : List EmittedEvent
  pending : List FinalizeAction
  trace : List Act

namespace Sortable

/-- src/ui/Sortable.ts lines 87-116, `onInteractionStart`: bail out if an
interaction is already active or the event has no target; compute the
dragged item (the target itself when it matches the `items` selector, else
its closest matching ancestor — with no null guard); construct and start
the interaction; attach the document/window listeners; emit `start` with
the dragged item; call `preventDefault` on the event. -/
def onInteractionStart (event : MouseEvent) (s : State) : State :=
  match s.interaction with
  | some _ => s
  | none =>
    match event.target with
    | none => s
    | some eventTarget =>
      let draggedItem :=
        if s.world.itemSel eventTarget then some eventTarget
        else closest s.world.itemSel event.ancestors
      let i := (SortableInteraction.make draggedItem event.screenX event.screenY).start s.world
      { s with
          interaction := some i,
          docListeners := true,
          emitted := s.emitted ++ [EmittedEvent.start draggedItem],
          trace := s.trace ++ [Act.constructInteraction, Act.attachListeners,
                               Act.emitStart, Act.preventDefault] }

/-- src/ui/Sortable.ts lines 122-130, `onDragMove`: silently return when no
interaction is active, otherwise forward the pointer coordinates to the
interaction's `onMove`. -/
def onDragMove (event : MouseEvent) (s : State) : State :=
  match s.interaction with
  | none => s
  | some i =>
    let m := i.onMove event.screenX event.screenY s.world
    { s with interaction := some m.1, world := m.2 }

/-- src/ui/Sortable.ts lines 150-152: the finalize chosen by `onDragEnd` —
`drop` with the event's coordinates when an event is given, `abort`
otherwise. -/
def endActionOf : Option MouseEvent → FinalizeAction
  | some e => FinalizeAction.drop e.screenX e.screenY
  | none => FinalizeAction.abort

/-- src/ui/Sortable.ts lines 136-180, `onDragEnd`, synchronous part: silently
return when no interaction is active; otherwise detach the document/window
listeners and start the finalize (`drop` with the event's coordinates when
an event is given, `abort` otherwise), queueing its `.then` continuation. -/
def onDragEnd (event : Option MouseEvent) (s : State) : State :=
  match s.interaction with
  | none => s
  | some _ =>
    { s with
        docListeners := false,
        pending := s.pending ++ [endActionOf event],
        trace := s.trace ++ [Act.detachListeners] }

/-- src/ui/Sortable.ts lines 154-179, the `.then` continuation of
`onDragEnd`: the interaction's finalize resolves with its result, then the
callback re-queries the container's current items, returns early if the
interaction reference is null, reads `orderHasChanged()`, clears the
interaction reference, emits `end` unconditionally, and emits `changed`
with `{items, result}` only if the order changed. -/
def runPending (s : State) : State :=
  match s.pending with
  | [] => s
  | act :: rest =>
    match s.interaction with
    | none =>
      { s with pending := rest,
               trace := s.trace ++ [Act.finalizeResolved, Act.requery] }
    | some i =>
      let f := runFinalize i s.world act
      let currentItems := findItems f.2.1
      let ohc := f.1.orderHasChanged
      { s with
          world := f.2.1,
          pending := rest,
          interaction := none,
          emitted := s.emitted ++ [EmittedEvent.endEvent] ++
            (if ohc then [EmittedEvent.changed currentItems f.2.2] else []),
          trace := s.trace ++ [Act.finalizeResolved, Act.requery,
                               Act.readOrderChanged, Act.clearInteraction, Act.emitEnd] ++
            (if ohc then [Act.emitChanged] else []) }

/-- src/ui/Sortable.ts lines 186-193, `onMouseOut`: finalize via the abort
path (`onDragEnd` with no event) exactly when the event's related target is
the document root element returned by `findOne("html")`. -/
def onMouseOut (event : MouseEvent) (s : State) : State :=
  if event.relatedTarget = some s.world.htmlElem then onDragEnd none s else s

/-- src/ui/Sortable.ts lines 198-206, `onScroll`: silently return when no
interaction is active, otherwise forward to the interaction's `onScroll`. -/
def onScroll (s : State) : State :=
  match s.interaction with
  | none => s
  | some i =>
    let m := i.onScroll s.world
    { s with interaction := some m.1, world := m.2 }

/-- src/ui/Sortable.ts lines 221-230, `destroy`: run `onDragEnd` with no
event (aborting any active drag), then, if a delegated mousedown listener is
installed, remove it and clear the token. -/
def destroy (s : State) : State :=
  let s1 := onDragEnd none s
  match s1.delegateHandler with
  | none => s1
  | some _ =>
    { s1 with delegateHandler := none, delegateCount := s1.delegateCount - 1 }

/-- src/ui/Sortable.ts lines 68-81, `init`: if a delegated listener is
already installed, tear the previous installation down via `destroy`; then
install a fresh delegated mousedown listener on the container. -/
def init (s : State) : State :=
  let s1 :=
    match s.delegateHandler with
    | some _ => destroy s
    | none => s
  { s1 with
      delegateHandler := some s1.nextToken,
      delegateCount := s1.delegateCount + 1,
      nextToken := s1.nextToken + 1 }

end Sortable

/-- A concrete world for witnesses: container children `[1, 2, 3]`, all
three matching the items selector, geometry always yielding anchor `none`. -/
def exWorld : World :=
  { children := [1, 2, 3],
    itemSel := fun e => e == 1 || e == 2 || e == 3,
    scrollY := 0,
    anchorAt := fun _ _ _ => none,
    htmlElem := 100 }

/-- A concrete idle controller state for witnesses. -/
def exIdleState : State :=
  { world := exWorld, interaction := none, docListeners := false,
    delegateHandler := some 0, delegateCount := 1, nextToken := 1,
    emitted := [], pending := [], trace := [] }

/-- A concrete active interaction for witnesses: item 1 picked up, original
anchor 2. -/
def exInteraction : SortableInteraction :=
  { draggedItem := some 1, lastX := 5, lastY := 5,
    origBefore := some 2, curBefore := some 2 }

/-- A concrete dragging controller state for witnesses. -/
def exDragState : State :=
  { world := exWorld, interaction := some exInteraction, docListeners := true,
    delegateHandler := some 0, delegateCount := 1, nextToken := 1,
    emitted := [EmittedEvent.start (some 1)], pending := [], trace := [] }

/-- A concrete mousedown event on item 2 for witnesses. -/
def exEvent : MouseEvent :=
  { target := some 2, ancestors := [50], screenX := 7, screenY := 8,
    relatedTarget := none }

/-- A concrete mouseout event whose related target is the document root. -/
def exMouseOutEvent : MouseEvent :=
  { target := none, ancestors := [], screenX := 0, screenY := 0,
    relatedTarget := some 100 }

/-- A concrete mousedown event whose target (50) and ancestor chain (60)
match nothing in the items selector. -/
def exMissEvent : MouseEvent :=
  { target := some 50, ancestors := [60], screenX := 1, screenY := 2,
    relatedTarget := none }

/-- Claim C1: while the controller already holds an active interaction,
`onInteractionStart` returns immediately and the state is completely
unchanged — no second interaction is constructed, no listeners are
attached, no `start` event is emitted, and the existing interaction is
untouched, so at most one interaction exists per controller. -/
theorem sortable_c1 (s : State) (i : SortableInteraction) (ev : MouseEvent)
    (h : s.interaction = some i) :
    Sortable.onInteractionStart ev s = s := by
  unfold Sortable.onInteractionStart
  rw [h]

theorem sortable_c1_witness :
    exDragState.interaction = some exInteraction ∧
      Sortable.onInteractionStart exEvent exDragState = exDragState :=
  ⟨rfl, sortable_c1 exDragState exInteraction exEvent rfl⟩

/-- The emission equation of a full gesture end: running the continuation
queued by `onDragEnd` appends `end`, then `changed` exactly when the
finalized interaction reports a changed order. -/
theorem gestureEnd_emitted (s : State) (i : SortableInteraction)
    (ev : Option MouseEvent) (hi : s.interaction = some i) (hp : s.pending = []) :
    (Sortable.runPending (Sortable.onDragEnd ev s)).emitted =
      s.emitted ++ [EmittedEvent.endEvent] ++
        (if (runFinalize i s.world (Sortable.endActionOf ev)).1.orderHasChanged then
          [EmittedEvent.changed
            (findItems (runFinalize i s.world (Sortable.endActionOf ev)).2.1)
            (runFinalize i s.world (Sortable.endActionOf ev)).2.2]
         else []) := by
  obtain ⟨w, itc, dl, dh, dc, nt, em, pd, tr⟩ := s
  cases hi
  cases hp
  rfl

/-- After an abort finalize the interaction's current anchor equals its
original anchor, so `orderHasChanged` is false. -/
theorem orderHasChanged_abort (i : SortableInteraction) (w : World) :
    (runFinalize i w FinalizeAction.abort).1.orderHasChanged = false := by
  simp [runFinalize, SortableInteraction.orderHasChanged]

/-- Claim C2: for every gesture end — drop (`event` present) or abort
(`event` absent, as from mouse-out or destroy) — once the queued finalize
continuation runs, exactly one `end` event has been appended
unconditionally, and `changed` has been appended (at most once, directly
after `end`) exactly when the finalized interaction's `orderHasChanged()`
is true. -/
theorem sortable_c2 (s : State) (i : SortableInteraction) (ev : Option MouseEvent)
    (hi : s.interaction = some i) (hp : s.pending = []) :
    (Sortable.runPending (Sortable.onDragEnd ev s)).emitted =
      s.emitted ++ [EmittedEvent.endEvent] ++
        (if (runFinalize i s.world (Sortable.endActionOf ev)).1.orderHasChanged then
          [EmittedEvent.changed
            (findItems (runFinalize i s.world (Sortable.endActionOf ev)).2.1)
            (runFinalize i s.world (Sortable.endActionOf ev)).2.2]
         else []) :=
  gestureEnd_emitted s i ev hi hp

theorem sortable_c2_witness :
    (Sortable.runPending (Sortable.onDragEnd (some exEvent) exDragState)).emitted =
      [EmittedEvent.start (some 1), EmittedEvent.endEvent,
       EmittedEvent.changed [2, 3, 1] (some { item := some 1, before := none })] :=
  sortable_c2 exDragState exInteraction (some exEvent) rfl rfl

/-- Claim C3: when a pickup is accepted (idle controller, event has a
target), the controller emits `start` whose payload is the dragged item —
the target itself when it matches the items selector, otherwise its closest
matching ancestor — and the trace records emit-start followed by
`preventDefault` on the triggering event (after interaction construction
and listener attachment). -/
theorem sortable_c3 (s : State) (ev : MouseEvent) (tgt : Elem)
    (hidle : s.interaction = none) (htgt : ev.target = some tgt) :
    (Sortable.onInteractionStart ev s).emitted =
      s.emitted ++ [EmittedEvent.start
        (if s.world.itemSel tgt then some tgt else closest s.world.itemSel ev.ancestors)] ∧
    (Sortable.onInteractionStart ev s).trace =
      s.trace ++ [Act.constructInteraction, Act.attachListeners,
                  Act.emitStart, Act.preventDefault] := by
  obtain ⟨w, itc, dl, dh, dc, nt, em, pd, tr⟩ := s
  obtain ⟨t, anc, sx, sy, rt⟩ := ev
  cases hidle
  cases htgt
  exact ⟨rfl, rfl⟩

theorem sortable_c3_witness :
    (Sortable.onInteractionStart exEvent exIdleState).emitted =
      [EmittedEvent.start (some 2)] ∧
    (Sortable.onInteractionStart exEvent exIdleState).trace =
      [Act.constructInteraction, Act.attachListeners,
       Act.emitStart, Act.preventDefault] :=
  sortable_c3 exIdleState exEvent 2 rfl rfl

/-- Claim C4: per gesture end the steps are strictly sequential: the
synchronous part of `onDragEnd` detaches the wide-scope listeners (trace
gains only `detachListeners`) while the interaction reference is still set,
so a second pickup is still a no-op before the continuation runs; the
continuation then performs finalize-resolution, DOM re-query,
`orderHasChanged` read, clearing of the interaction reference, and only
then the notifications, in that order. -/
theorem sortable_c4 (s : State) (i : SortableInteraction) (ev : Option MouseEvent)
    (ev2 : MouseEvent) (hi : s.interaction = some i) (hp : s.pending = []) :
    (Sortable.onDragEnd ev s).trace = s.trace ++ [Act.detachListeners] ∧
    (Sortable.onDragEnd ev s).interaction = some i ∧
    Sortable.onInteractionStart ev2 (Sortable.onDragEnd ev s) = Sortable.onDragEnd ev s ∧
    (Sortable.runPending (Sortable.onDragEnd ev s)).interaction = none ∧
    (Sortable.runPending (Sortable.onDragEnd ev s)).trace =
      ((s.trace ++ [Act.detachListeners]) ++
        [Act.finalizeResolved, Act.requery, Act.readOrderChanged,
         Act.clearInteraction, Act.emitEnd]) ++
        (if (runFinalize i s.world (Sortable.endActionOf ev)).1.orderHasChanged then
          [Act.emitChanged] else []) := by
  obtain ⟨w, itc, dl, dh, dc, nt, em, pd, tr⟩ := s
  cases hi
  cases hp
  exact ⟨rfl, rfl, rfl, rfl, rfl⟩

theorem sortable_c4_witness :
    (Sortable.onDragEnd (some exEvent) exDragState).trace = [Act.detachListeners] ∧
    (Sortable.onDragEnd (some exEvent) exDragState).interaction = some exInteraction ∧
    Sortable.onInteractionStart exEvent (Sortable.onDragEnd (some exEvent) exDragState) =
      Sortable.onDragEnd (some exEvent) exDragState ∧
    (Sortable.runPending (Sortable.onDragEnd (some exEvent) exDragState)).interaction = none ∧
    (Sortable.runPending (Sortable.onDragEnd (some exEvent) exDragState)).trace =
      [Act.detachListeners, Act.finalizeResolved, Act.requery, Act.readOrderChanged,
       Act.clearInteraction, Act.emitEnd, Act.emitChanged] :=
  sortable_c4 exDragState exInteraction (some exEvent) exEvent rfl rfl

/-- Claim C5: for every gesture whose drop leaves the final anchor different
from the original (`orderHasChanged` true on the finalized interaction), the
single `changed` event carries `{items, result}` where `items` is the items
list freshly re-queried from the container after the finalize (the
post-drag DOM order) and `result` is the drop's `{item, before}` value. -/
theorem sortable_c5 (s : State) (i : SortableInteraction) (ev : MouseEvent)
    (hi : s.interaction = some i) (hp : s.pending = [])
    (hchanged :
      (runFinalize i s.world (Sortable.endActionOf (some ev))).1.orderHasChanged = true) :
    (Sortable.runPending (Sortable.onDragEnd (some ev) s)).emitted =
      s.emitted ++ [EmittedEvent.endEvent,
        EmittedEvent.changed
          (findItems (runFinalize i s.world (Sortable.endActionOf (some ev))).2.1)
          (some { item := (runFinalize i s.world (Sortable.endActionOf (some ev))).1.draggedItem,
                  before :=
                    (runFinalize i s.world (Sortable.endActionOf (some ev))).1.curBefore })] := by
  rw [gestureEnd_emitted s i (some ev) hi hp, hchanged]
  simp only [if_true, List.append_assoc, List.singleton_append, List.cons_append,
    List.nil_append]
  rfl

theorem sortable_c5_witness :
    (runFinalize exInteraction exWorld
        (Sortable.endActionOf (some exEvent))).1.orderHasChanged = true ∧
    (Sortable.runPending (Sortable.onDragEnd (some exEvent) exDragState)).emitted =
      [EmittedEvent.start (some 1), EmittedEvent.endEvent,
       EmittedEvent.changed [2, 3, 1] (some { item := some 1, before := none })] :=
  ⟨rfl, sortable_c5 exDragState exInteraction exEvent rfl rfl rfl⟩

/-- Claim C6: during an active drag, a mouseout whose related target is the
document root element finalizes the gesture through the abort path
(`onDragEnd` with no event), emitting `end` and no `changed`; a mouseout
whose related target is anything else leaves the state untouched. -/
theorem sortable_c6 (s : State) (i : SortableInteraction)
    (ev evOther : MouseEvent)
    (hi : s.interaction = some i) (hp : s.pending = [])
    (hhtml : ev.relatedTarget = some s.world.htmlElem)
    (hother : evOther.relatedTarget ≠ some s.world.htmlElem) :
    Sortable.onMouseOut ev s = Sortable.onDragEnd none s ∧
    Sortable.onMouseOut evOther s = s ∧
    (Sortable.runPending (Sortable.onMouseOut ev s)).emitted =
      s.emitted ++ [EmittedEvent.endEvent] := by
  have h1 : Sortable.onMouseOut ev s = Sortable.onDragEnd none s := by
    unfold Sortable.onMouseOut
    rw [if_pos hhtml]
  refine ⟨h1, ?_, ?_⟩
  · unfold Sortable.onMouseOut
    rw [if_neg hother]
  · rw [h1, gestureEnd_emitted s i none hi hp]
    rw [show Sortable.endActionOf none = FinalizeAction.abort from rfl,
        orderHasChanged_abort]
    simp

theorem sortable_c6_witness :
    Sortable.onMouseOut exMouseOutEvent exDragState =
      Sortable.onDragEnd none exDragState ∧
    Sortable.onMouseOut exEvent exDragState = exDragState ∧
    (Sortable.runPending (Sortable.onMouseOut exMouseOutEvent exDragState)).emitted =
      [EmittedEvent.start (some 1), EmittedEvent.endEvent] :=
  sortable_c6 exDragState exInteraction exMouseOutEvent exEvent rfl rfl rfl
    (by decide)

/-- Claim C7: while the controller is idle (no interaction), the internal
handlers `onDragMove`, `onDragEnd` and `onScroll` return the state
completely unchanged — no mutation, no event emitted, no throw (the
embedding is total). -/
theorem sortable_c7 (s : State) (ev : MouseEvent) (oev : Option MouseEvent)
    (h : s.interaction = none) :
    Sortable.onDragMove ev s = s ∧ Sortable.onDragEnd oev s = s ∧
    Sortable.onScroll s = s := by
  obtain ⟨w, itc, dl, dh, dc, nt, em, pd, tr⟩ := s
  cases h
  exact ⟨rfl, rfl, rfl⟩

theorem sortable_c7_witness :
    Sortable.onDragMove exEvent exIdleState = exIdleState ∧
    Sortable.onDragEnd (some exEvent) exIdleState = exIdleState ∧
    Sortable.onScroll exIdleState = exIdleState :=
  sortable_c7 exIdleState exEvent (some exEvent) rfl

/-- Claim C8: `destroy` during an active drag (state `s`) forces the gesture
through the abort-and-finalize path: after the queued continuation runs,
exactly one `end` has been emitted and no `changed` (abort restores the
original anchor), the interaction is cleared, the document/window listeners
are already detached synchronously, and the delegated mousedown listener and
its token are removed; `destroy` from an idle state `t` is a no-op beyond
removing the delegated listener. -/
theorem sortable_c8 (s : State) (i : SortableInteraction)
    (hi : s.interaction = some i) (hp : s.pending = [])
    (t : State) (ht : t.interaction = none) :
    (Sortable.runPending (Sortable.destroy s)).emitted =
      s.emitted ++ [EmittedEvent.endEvent] ∧
    (Sortable.runPending (Sortable.destroy s)).interaction = none ∧
    (Sortable.destroy s).docListeners = false ∧
    (Sortable.destroy s).delegateHandler = none ∧
    Sortable.destroy t =
      { t with delegateHandler := none,
               delegateCount := t.delegateCount -
                 (if t.delegateHandler.isSome then 1 else 0) } := by
  obtain ⟨w, itc, dl, dh, dc, nt, em, pd, tr⟩ := s
  cases hi
  cases hp
  obtain ⟨w2, itc2, dl2, dh2, dc2, nt2, em2, pd2, tr2⟩ := t
  cases ht
  cases dh <;> cases dh2 <;>
    exact ⟨by simp [Sortable.destroy, Sortable.onDragEnd, Sortable.runPending,
        Sortable.endActionOf, runFinalize, SortableInteraction.orderHasChanged],
      rfl, rfl, rfl, rfl⟩

theorem sortable_c8_witness :
    (Sortable.runPending (Sortable.destroy exDragState)).emitted =
      [EmittedEvent.start (some 1), EmittedEvent.endEvent] ∧
    (Sortable.runPending (Sortable.destroy exDragState)).interaction = none ∧
    (Sortable.destroy exDragState).docListeners = false ∧
    (Sortable.destroy exDragState).delegateHandler = none ∧
    Sortable.destroy exIdleState =
      { exIdleState with
          delegateHandler := none,
          delegateCount := exIdleState.delegateCount -
            (if exIdleState.delegateHandler.isSome then 1 else 0) } :=
  sortable_c8 exDragState exInteraction rfl rfl exIdleState rfl

/-- Claim C9: starting from a state where the number of installed delegated
mousedown listeners matches the token (zero or one), `init` always leaves
exactly one delegated listener installed — it tears a previous installation
down via `destroy` before installing anew — and a second `init` leaves the
installed-listener count of a single `init` unchanged. -/
theorem sortable_c9 (s : State)
    (hinv : s.delegateCount = if s.delegateHandler.isSome then 1 else 0) :
    (Sortable.init s).delegateCount = 1 ∧
    (Sortable.init s).delegateHandler.isSome = true ∧
    (Sortable.init (Sortable.init s)).delegateCount =
      (Sortable.init s).delegateCount := by
  obtain ⟨w, itc, dl, dh, dc, nt, em, pd, tr⟩ := s
  cases dh <;> simp at hinv <;> subst hinv <;> cases itc <;> exact ⟨rfl, rfl, rfl⟩

theorem sortable_c9_witness :
    (Sortable.init exIdleState).delegateCount = 1 ∧
    (Sortable.init exIdleState).delegateHandler.isSome = true ∧
    (Sortable.init (Sortable.init exIdleState)).delegateCount =
      (Sortable.init exIdleState).delegateCount :=
  sortable_c9 exIdleState rfl

/-- Claim C10: when a delegated mousedown arrives on an idle controller with
a non-null target that neither matches the items selector nor has a matching
ancestor, there is no null guard: an interaction is still constructed with a
null dragged item, the document/window listeners are attached, and `start`
is emitted with the null payload. -/
theorem sortable_c10 (s : State) (ev : MouseEvent) (tgt : Elem)
    (hidle : s.interaction = none) (htgt : ev.target = some tgt)
    (hmatch : s.world.itemSel tgt = false)
    (hclosest : closest s.world.itemSel ev.ancestors = none) :
    (Sortable.onInteractionStart ev s).interaction.map
      SortableInteraction.draggedItem = some none ∧
    (Sortable.onInteractionStart ev s).docListeners = true ∧
    (Sortable.onInteractionStart ev s).emitted =
      s.emitted ++ [EmittedEvent.start none] := by
  obtain ⟨w, itc, dl, dh, dc, nt, em, pd, tr⟩ := s
  obtain ⟨tg, anc, sx, sy, rt⟩ := ev
  cases hidle
  cases htgt
  simp only at hmatch hclosest
  refine ⟨?_, ?_, ?_⟩ <;>
    simp [Sortable.onInteractionStart, SortableInteraction.make,
      SortableInteraction.start, hmatch, hclosest]

theorem sortable_c10_witness :
    (Sortable.onInteractionStart exMissEvent exIdleState).interaction.map
      SortableInteraction.draggedItem = some none ∧
    (Sortable.onInteractionStart exMissEvent exIdleState).docListeners = true ∧
    (Sortable.onInteractionStart exMissEvent exIdleState).emitted =
      [EmittedEvent.start none] :=
  sortable_c10 exIdleState exMissEvent 50 rfl rfl rfl rfl

end Mojave
